import Mathlib

/-!
Shallow embedding of the Kids Club check-in/check-out lifecycle
(repository module `extra_addons/kids_club`): the check-in session model,
subscription entitlements, room capacity validation and the OTP-gated
transitions, translated from `models/checkin.py`, `models/child.py` and
`wizard/checkin_wizard.py`.

Conventions: times are integer seconds, dates integer days, monetary
amounts exact rationals, OTP codes natural numbers (the source generates
6-digit digit strings and only ever compares them for equality).
Records are referenced by their position in the store lists; the ORM
presentation order of a child's subscriptions (`start_date desc`) is
taken to be the list order of `Store.subs`.
-/

attribute [local semireducible] Rat.mul

/-- Workflow states of `kids.child.subscription` (`child.py`). -/
inductive SubState
  | draft
  | confirmed
  | paid
  | active
  | expired
  | cancelled
deriving DecidableEq, Repr

/-- Lifecycle states of `kids.child.checkin` (`checkin.py`, `state` selection).
`pending_otp` is what the spec calls `pending_checkin_otp`. -/
inductive CheckinState
  | pending_otp
  | checked_in
  | pending_payment
  | pending_checkout_otp
  | checked_out
  | cancelled
deriving DecidableEq, Repr

/-- The validation errors raised by the module (each a `ValidationError`
message in the source), under the spec's error taxonomy names. -/
inductive Err
  | ChildNotFound
  | NoActiveEntitlement
  | AlreadyCheckedIn
  | RoomMissing
  | RoomFull
  | RecordMissing
  | NoOtpIssued
  | OtpMismatch
  | OtpExpired
  | NotCheckedIn
  | PaymentNotRequired
deriving DecidableEq, Repr

/-- A subscription package (`subscription_package.py`): minutes are the
source's Integer fields, the per-minute rate its Float field. -/
structure Package where
  daily_free_minutes : Int
  margin_minutes : Int
  extra_time_charge_per_minute : Rat
  number_of_visits : Int
deriving DecidableEq, Repr

/-- A `kids.child.subscription` record (`child.py`, class ChildSubscription),
restricted to the fields the check-in flow reads. -/
structure Subscription where
  child_id : Nat
  state : SubState
  start_date : Int
  end_date : Int
  visits_used : Int
  package_ids : List Package
  package_id : Option Package
deriving DecidableEq, Repr

/-- A `kids.child.checkin` record (`checkin.py`). -/
structure CheckinSession where
  child_id : Nat
  room_id : Option Nat
  subscription_id : Nat
  checkin_time : Int
  checkout_time : Option Int
  otp_code : Option Nat
  otp_verified : Bool
  otp_sent_time : Option Int
  otp_verified_time : Option Int
  checkout_otp_code : Option Nat
  checkout_otp_verified : Bool
  checkout_otp_sent_time : Option Int
  checkout_otp_verified_time : Option Int
  payment_confirmed : Bool
  payment_confirmation_time : Option Int
  state : CheckinState
  extra_invoice_id : Option Nat
deriving DecidableEq, Repr

/-- A `kids.room` record (`room.py`): only the capacity is read here. -/
structure Room where
  capacity : Int
deriving DecidableEq, Repr

/-- The persistent state the check-in flow touches: children (by count),
rooms, subscriptions and sessions (by list position), and the number of
invoices created so far through `_create_extra_charges_invoice`. -/
structure Store where
  num_children : Nat
  rooms : List Room
  subs : List Subscription
  sessions : List CheckinSession
  invoice_count : Nat
deriving DecidableEq, Repr

/-- Python `max(l)` with the `or [d]` fallback for an empty list, on Int. -/
def py_max_int (l : List Int) (d : Int) : Int :=
  match l with
  | [] => d
  | x :: xs => List.foldl max x xs

/-- Python `max(l) if l else d`, on Rat. -/
def py_max_rat (l : List Rat) (d : Rat) : Rat :=
  match l with
  | [] => d
  | x :: xs => List.foldl max x xs

/-- `_compute_is_active` (child.py): true when the subscription is in state
`paid` and today lies within the validity window. -/
def _compute_is_active (sub : Subscription) (today : Int) : Bool :=
  decide (sub.state = SubState.paid ∧ sub.start_date ≤ today ∧ today ≤ sub.end_date)

/-- `total_visits_allowed` part of `_compute_visit_fields` (child.py). -/
def total_visits_allowed (sub : Subscription) : Int :=
  if sub.package_ids ≠ [] then (sub.package_ids.map Package.number_of_visits).sum
  else
    match sub.package_id with
    | some p => p.number_of_visits
    | none => 0

/-- `remaining_visits` part of `_compute_visit_fields` (child.py):
`max(0, total_visits - visits_used)`. -/
def remaining_visits (sub : Subscription) : Int :=
  max 0 (total_visits_allowed sub - sub.visits_used)

/-- `_compute_duration` (checkin.py): duration in whole minutes, against the
stored checkout time when present, against the current time otherwise
(`int(delta.total_seconds() / 60)`, truncation toward zero). -/
def duration_minutes (s : CheckinSession) (now : Int) : Int :=
  match s.checkout_time with
  | some co => Int.tdiv (co - s.checkin_time) 60
  | none => Int.tdiv (now - s.checkin_time) 60

/-- The `total_free_time` allowance of `_compute_time_usage` (checkin.py):
maximum daily free minutes plus maximum margin minutes across the selected
packages; the single `package_id` fields otherwise. -/
def total_free_time (sub : Subscription) : Int :=
  if sub.package_ids ≠ [] then
    py_max_int (sub.package_ids.map Package.daily_free_minutes) 0 +
      py_max_int (sub.package_ids.map Package.margin_minutes) 0
  else
    match sub.package_id with
    | some p => p.daily_free_minutes + p.margin_minutes
    | none => 0

/-- `free_minutes_used` part of `_compute_time_usage` (checkin.py). -/
def free_minutes_used (s : CheckinSession) (sub : Subscription) (now : Int) : Int :=
  if duration_minutes s now ≤ 0 then 0
  else if duration_minutes s now ≤ total_free_time sub then duration_minutes s now
  else total_free_time sub

/-- `extra_minutes` part of `_compute_time_usage` (checkin.py). -/
def extra_minutes (s : CheckinSession) (sub : Subscription) (now : Int) : Int :=
  if duration_minutes s now ≤ 0 then 0
  else if duration_minutes s now ≤ total_free_time sub then 0
  else duration_minutes s now - total_free_time sub

/-- The `per_minute_rate` of `_compute_extra_charges` (checkin.py):
maximum rate across the selected packages. -/
def per_minute_rate (sub : Subscription) : Rat :=
  if sub.package_ids ≠ [] then
    py_max_rat (sub.package_ids.map Package.extra_time_charge_per_minute) 0
  else
    match sub.package_id with
    | some p => p.extra_time_charge_per_minute
    | none => 0

/-- `_compute_extra_charges` (checkin.py). -/
def extra_charges (s : CheckinSession) (sub : Subscription) (now : Int) : Rat :=
  if extra_minutes s sub now ≤ 0 then 0
  else if 0 < per_minute_rate sub then (extra_minutes s sub now : Rat) * per_minute_rate sub
  else 0

/-- The sessions belonging to one child (`checkin_ids` one2many). -/
def childSessions (st : Store) (c : Nat) : List CheckinSession :=
  st.sessions.filter (fun s => decide (s.child_id = c))

/-- `_compute_checkin_status` (child.py): a child is checked in when it has a
session with no checkout time in state `checked_in` or `pending_checkout_otp`. -/
def is_checked_in (st : Store) (c : Nat) : Bool :=
  (childSessions st c).any (fun s =>
    decide (s.checkout_time = none ∧
      (s.state = CheckinState.checked_in ∨ s.state = CheckinState.pending_checkout_otp)))

/-- A child's subscriptions with their store indices (`subscription_ids`). -/
def childSubs (st : Store) (c : Nat) : List (Nat × Subscription) :=
  st.subs.enum.filter (fun p => decide (p.2.child_id = c))

/-- The filtered lambda of `validate_active_subscription` (checkin.py):
`s.state in ['active', 'paid'] and s.is_active and s.remaining_visits > 0`. -/
def activeSubFilter (st : Store) (c : Nat) (today : Int) : List (Nat × Subscription) :=
  (childSubs st c).filter (fun p =>
    decide (p.2.state = SubState.active ∨ p.2.state = SubState.paid) &&
      _compute_is_active p.2 today &&
      decide (0 < remaining_visits p.2))

/-- `validate_active_subscription` (checkin.py): child existence, then the
entitlement filter, then the already-checked-in check; on success the first
filtered subscription's index is returned. -/
def validate_active_subscription (st : Store) (c : Nat) (today : Int) : Except Err Nat :=
  if st.num_children ≤ c then .error Err.ChildNotFound
  else
    match activeSubFilter st c today with
    | [] => .error Err.NoActiveEntitlement
    | (j, _) :: _ => if is_checked_in st c then .error Err.AlreadyCheckedIn else .ok j

/-- Sessions counted by `_validate_room_capacity` (checkin.py): sessions in
this room in state `checked_in`, optionally excluding one record. -/
def roomOccupancy (st : Store) (r : Nat) (excl : Option Nat) : Nat :=
  (st.sessions.enum.filter (fun p =>
    decide (p.2.room_id = some r ∧ p.2.state = CheckinState.checked_in ∧ excl ≠ some p.1))).length

/-- `_validate_room_capacity` (checkin.py): error when the room is missing or
the current `checked_in` count already reaches its capacity. -/
def _validate_room_capacity (st : Store) (r : Nat) (excl : Option Nat) : Option Err :=
  match st.rooms[r]? with
  | none => some Err.RoomMissing
  | some room => if room.capacity ≤ (roomOccupancy st r excl : Int) then some Err.RoomFull else none

/-- A freshly created `kids.child.checkin` record with the model defaults
(state `pending_otp`, check-in time defaulted to now). -/
def mkSession (c : Nat) (room : Option Nat) (j : Nat) (now : Int) : CheckinSession :=
  { child_id := c, room_id := room, subscription_id := j, checkin_time := now,
    checkout_time := none, otp_code := none, otp_verified := false, otp_sent_time := none,
    otp_verified_time := none, checkout_otp_code := none, checkout_otp_verified := false,
    checkout_otp_sent_time := none, checkout_otp_verified_time := none,
    payment_confirmed := false, payment_confirmation_time := none,
    state := CheckinState.pending_otp, extra_invoice_id := none }

/-- `action_send_otp` (checkin.py): store a fresh check-in OTP and its
issue time on the session. -/
def action_send_otp (s : CheckinSession) (otp : Nat) (now : Int) : CheckinSession :=
  { s with otp_code := some otp, otp_sent_time := some now }

/-- `action_send_checkout_otp` (checkin.py): store a fresh checkout OTP and
its issue time on the session; the state field is not touched. -/
def action_send_checkout_otp (s : CheckinSession) (otp : Nat) (now : Int) : CheckinSession :=
  { s with checkout_otp_code := some otp, checkout_otp_sent_time := some now }

/-- Replace session `i` in the store. -/
def setSession (st : Store) (i : Nat) (s : CheckinSession) : Store :=
  { st with sessions := st.sessions.set i s }

/-- `create_checkin_request` (checkin.py): validate the subscription, validate
room capacity when a room is passed (create override), append the new
session and stamp its OTP. -/
def create_checkin_request (st : Store) (c : Nat) (room : Option Nat) (today : Int)
    (otp : Nat) (now : Int) : Except Err Store :=
  match validate_active_subscription st c today with
  | .error e => .error e
  | .ok j =>
    match room with
    | none =>
      .ok { st with sessions := st.sessions ++ [action_send_otp (mkSession c none j now) otp now] }
    | some r =>
      match _validate_room_capacity st r none with
      | some e => .error e
      | none =>
        .ok { st with
          sessions := st.sessions ++ [action_send_otp (mkSession c (some r) j now) otp now] }

/-- The OTP checks of `action_verify_otp` / `action_verify_checkout_otp`
(checkin.py), in source order: no issued code, then mismatch, then the
5-minute expiry which is applied only when the issue time is recorded and
uses a strict greater-than comparison. -/
def otpCheck (code : Option Nat) (sent : Option Int) (entered : Nat) (now : Int) : Option Err :=
  match code with
  | none => some Err.NoOtpIssued
  | some c =>
    if entered ≠ c then some Err.OtpMismatch
    else
      match sent with
      | none => none
      | some t => if t + 300 < now then some Err.OtpExpired else none

/-- The successful branch of `action_verify_otp` (checkin.py): mark the OTP
verified, move to `checked_in`, reset the check-in time to the verification
moment, then increment `visits_used` on the subscription. -/
def verify_otp_success (st : Store) (i : Nat) (s : CheckinSession) (now : Int) : Store :=
  let s1 := { s with otp_verified := true, otp_verified_time := some now,
                     state := CheckinState.checked_in, checkin_time := now }
  let st1 := setSession st i s1
  match st1.subs[s.subscription_id]? with
  | none => st1
  | some sub =>
    { st1 with subs := st1.subs.set s.subscription_id { sub with visits_used := sub.visits_used + 1 } }

/-- `action_verify_otp` (checkin.py). Note the source has no state guard and
no room-capacity re-check on this transition. -/
def action_verify_otp (st : Store) (i : Nat) (entered : Nat) (now : Int) : Option Err × Store :=
  match st.sessions[i]? with
  | none => (some Err.RecordMissing, st)
  | some s =>
    match otpCheck s.otp_code s.otp_sent_time entered now with
    | some e => (some e, st)
    | none => (none, verify_otp_success st i s now)

/-- The checkout path of the check-in wizard, `action_send_checkout_otp`
(checkin_wizard.py): reject unless the session is `checked_in`, then issue
the checkout OTP directly; no branch on the overage charge exists and the
session state is left unchanged. -/
def wizard_action_send_checkout_otp (st : Store) (i : Nat) (otp : Nat) (now : Int) :
    Option Err × Store :=
  match st.sessions[i]? with
  | none => (some Err.RecordMissing, st)
  | some s =>
    if s.state ≠ CheckinState.checked_in then (some Err.NotCheckedIn, st)
    else (none, setSession st i (action_send_checkout_otp s otp now))

/-- `action_confirm_payment` (checkin.py): only from `pending_payment`; marks
payment confirmed and immediately issues the checkout OTP. -/
def action_confirm_payment (st : Store) (i : Nat) (otp : Nat) (now : Int) : Option Err × Store :=
  match st.sessions[i]? with
  | none => (some Err.RecordMissing, st)
  | some s =>
    if s.state ≠ CheckinState.pending_payment then (some Err.PaymentNotRequired, st)
    else
      (none, setSession st i
        (action_send_checkout_otp
          { s with payment_confirmed := true, payment_confirmation_time := some now } otp now))

/-- The successful branch of `action_verify_checkout_otp` (checkin.py): stamp
the checkout, move to `checked_out`, then create an invoice through
`_create_extra_charges_invoice` when the recomputed extra charges are
positive; the fresh invoice id overwrites `extra_invoice_id`. -/
def verify_checkout_success (st : Store) (i : Nat) (s : CheckinSession) (now : Int) : Store :=
  let s1 := { s with checkout_otp_verified := true, checkout_otp_verified_time := some now,
                     checkout_time := some now, state := CheckinState.checked_out }
  let charge : Rat :=
    match st.subs[s.subscription_id]? with
    | none => 0
    | some sub => extra_charges s1 sub now
  if 0 < charge then
    { (setSession st i { s1 with extra_invoice_id := some st.invoice_count }) with
        invoice_count := st.invoice_count + 1 }
  else setSession st i s1

/-- `action_verify_checkout_otp` (checkin.py). As with check-in verification,
the source has no state guard. -/
def action_verify_checkout_otp (st : Store) (i : Nat) (entered : Nat) (now : Int) :
    Option Err × Store :=
  match st.sessions[i]? with
  | none => (some Err.RecordMissing, st)
  | some s =>
    match otpCheck s.checkout_otp_code s.checkout_otp_sent_time entered now with
    | some e => (some e, st)
    | none => (none, verify_checkout_success st i s now)

/-- The package of the spec's end-to-end scenario: 60 daily free minutes,
10 margin minutes, rate 5 per extra minute, 10 visits. -/
def pkg0 : Package :=
  { daily_free_minutes := 60, margin_minutes := 10,
    extra_time_charge_per_minute := 5, number_of_visits := 10 }

/-- A paid subscription for child `c`, valid on days 0 through 30, holding
`pkg0`, no visits used yet. -/
def subPaid (c : Nat) : Subscription :=
  { child_id := c, state := SubState.paid, start_date := 0, end_date := 30,
    visits_used := 0, package_ids := [pkg0], package_id := none }

/-- `subPaid 0` but in workflow state `active`. -/
def subActive : Subscription := { subPaid 0 with state := SubState.active }

/-- Store with one child whose only subscription is `subActive`. -/
def storeC2 : Store :=
  { num_children := 1, rooms := [], subs := [subActive], sessions := [], invoice_count := 0 }

/-- Store with one child whose only subscription is `subPaid 0`. -/
def storeC2paid : Store :=
  { num_children := 1, rooms := [], subs := [subPaid 0], sessions := [], invoice_count := 0 }

/-- A session of child 0 in `pending_otp` with OTP 111111 issued at time 0. -/
def sessPending0 : CheckinSession := action_send_otp (mkSession 0 none 0 0) 111111 0

/-- One child, a paid valid subscription, and one `pending_otp` session. -/
def storeC3 : Store :=
  { num_children := 1, rooms := [], subs := [subPaid 0], sessions := [sessPending0],
    invoice_count := 0 }

/-- A session of child 0 in `checked_in` since time 0, no room. -/
def sessCheckedIn0 : CheckinSession := { mkSession 0 none 0 0 with state := CheckinState.checked_in }

/-- One child with a paid subscription and one `checked_in` session. -/
def st9 : Store :=
  { num_children := 1, rooms := [], subs := [subPaid 0], sessions := [sessCheckedIn0],
    invoice_count := 0 }

/-- Two children with paid subscriptions and one room of capacity 1. -/
def st4 : Store :=
  { num_children := 2, rooms := [{ capacity := 1 }], subs := [subPaid 0, subPaid 1],
    sessions := [], invoice_count := 0 }

/-- Two children, a capacity-1 room already holding a `checked_in` session of
child 1. -/
def st4full : Store :=
  { num_children := 2, rooms := [{ capacity := 1 }], subs := [subPaid 0, subPaid 1],
    sessions := [{ mkSession 1 (some 0) 1 0 with state := CheckinState.checked_in }],
    invoice_count := 0 }

/-- The trace refuting the room-capacity invariant: two check-in requests for
the capacity-1 room are both accepted while nobody is `checked_in` yet, then
both OTP verifications succeed. -/
def traceC4 : Option Err × Store :=
  match create_checkin_request st4 0 (some 0) 10 111111 1000 with
  | .error e => (some e, st4)
  | .ok st1 =>
    match create_checkin_request st1 1 (some 0) 10 222222 1010 with
    | .error e => (some e, st1)
    | .ok st2 =>
      match action_verify_otp st2 0 111111 1100 with
      | (some e, st) => (some e, st)
      | (none, st3) => action_verify_otp st3 1 222222 1200

/-- Two successive successful check-in OTP verifications of the same session. -/
def traceC5 : Option Err × Store :=
  match action_verify_otp storeC3 0 111111 60 with
  | (some e, st) => (some e, st)
  | (none, st1) => action_verify_otp st1 0 111111 120

/-- Checkout request at 90 minutes followed by one successful checkout OTP
verification. -/
def traceC9a : Option Err × Store :=
  match wizard_action_send_checkout_otp st9 0 654321 5400 with
  | (some e, st) => (some e, st)
  | (none, st1) => action_verify_checkout_otp st1 0 654321 5460

/-- `traceC9a` followed by a second checkout OTP verification of the same
session with the same still-stored code. -/
def traceC9 : Option Err × Store :=
  match traceC9a with
  | (some e, st) => (some e, st)
  | (none, st2) => action_verify_checkout_otp st2 0 654321 5520


/-- Claim C2: the claim says an entitlement in workflow state `active`,
within its validity window and with remaining visits qualifies for check-in.
The code rejects it: the filter in `validate_active_subscription` also
requires `is_active`, and `_compute_is_active` returns true only when the
state is `paid`, so the very subscription below — state `active`, day 10
inside its day 0..30 window, 10 remaining visits — yields
`NoActiveEntitlement`, while the identical subscription in state `paid`
is accepted. -/
theorem active_state_subscription_rejected :
    subActive.state = SubState.active ∧
    subActive.start_date ≤ 10 ∧ (10 : Int) ≤ subActive.end_date ∧
    0 < remaining_visits subActive ∧
    storeC2.subs = [subActive] ∧ storeC2.sessions = [] ∧
    validate_active_subscription storeC2 0 10 = Except.error Err.NoActiveEntitlement ∧
    validate_active_subscription storeC2paid 0 10 = Except.ok 0 :=
  ⟨rfl, by decide, by decide, by decide, rfl, rfl, rfl, rfl⟩

/-- Claim C3 (counterexample): a child already holding a session in the
non-terminal state `pending_otp` (`pending_checkin_otp`) is NOT rejected
with `AlreadyCheckedIn`: validation succeeds and a second session is
created, so two non-terminal sessions of the same child coexist. -/
theorem pending_otp_session_does_not_block_checkin :
    storeC3.sessions.map CheckinSession.state = [CheckinState.pending_otp] ∧
    validate_active_subscription storeC3 0 10 = Except.ok 0 ∧
    (create_checkin_request storeC3 0 none 10 222222 500).map
        (fun st => st.sessions.map CheckinSession.state) =
      Except.ok [CheckinState.pending_otp, CheckinState.pending_otp] :=
  ⟨rfl, rfl, rfl⟩

/-- Claim C4: the room-capacity invariant is violated by OTP verification.
In a store whose single room has capacity 1, two check-in requests for that
room are both accepted (the capacity check counts only `checked_in`
sessions, and both sessions are still `pending_otp`), and both subsequent
check-in OTP verifications succeed because `action_verify_otp` performs no
capacity re-check — leaving 2 concurrent `checked_in` sessions in the
capacity-1 room. The creation-time check itself does reject when the room
is already full (`st4full`). -/
theorem room_capacity_exceeded_via_otp_verification :
    st4.rooms = [{ capacity := 1 }] ∧
    traceC4.1 = none ∧
    roomOccupancy traceC4.2 0 none = 2 ∧
    traceC4.2.sessions.map CheckinSession.state =
      [CheckinState.checked_in, CheckinState.checked_in] ∧
    create_checkin_request st4full 0 (some 0) 10 333333 1000 = Except.error Err.RoomFull :=
  ⟨rfl, rfl, rfl, rfl, rfl⟩

/-- Claim C5: a single successful check-in OTP verification increments
`visits_used` to 1, transitions to `checked_in` and resets the check-in time
to the verification moment — but `action_verify_otp` has no state guard, so
repeating the call with the same still-stored code (within the expiry
window) succeeds again and increments `visits_used` a second time for the
same session. -/
theorem visits_used_double_increment :
    (action_verify_otp storeC3 0 111111 60).1 = none ∧
    (action_verify_otp storeC3 0 111111 60).2.subs.map Subscription.visits_used = [1] ∧
    (action_verify_otp storeC3 0 111111 60).2.sessions.map CheckinSession.state =
      [CheckinState.checked_in] ∧
    (action_verify_otp storeC3 0 111111 60).2.sessions.map CheckinSession.checkin_time = [60] ∧
    traceC5.1 = none ∧
    traceC5.2.subs.map Subscription.visits_used = [2] :=
  ⟨rfl, rfl, rfl, rfl, rfl, rfl⟩

/-- Claim C9: checkout OTP verification is not idempotent. After a checkout
request and one successful verification (duration 91 minutes, overage
charge positive) exactly one invoice exists; a second verification call
with the same still-stored code succeeds again — `action_verify_checkout_otp`
has no state guard and `_create_extra_charges_invoice` no idempotence
check — creating a second invoice and overwriting the session's link. -/
theorem checkout_reverification_creates_second_invoice :
    traceC9a.1 = none ∧
    traceC9a.2.invoice_count = 1 ∧
    traceC9a.2.sessions.map CheckinSession.extra_invoice_id = [some 0] ∧
    traceC9.1 = none ∧
    traceC9.2.invoice_count = 2 ∧
    traceC9.2.sessions.map CheckinSession.extra_invoice_id = [some 1] :=
  ⟨rfl, rfl, rfl, rfl, rfl, rfl⟩

/-- Claim C1 (counterexample): a `checked_in` session whose live overage
charge is positive (here 100 after 90 minutes against a 70-minute
allowance) does NOT transition to `pending_payment` on a checkout request:
the request succeeds, issues the checkout OTP immediately, and leaves the
state `checked_in`. -/
theorem checkout_with_overage_skips_pending_payment :
    0 < extra_charges sessCheckedIn0 (subPaid 0) 5400 ∧
    (wizard_action_send_checkout_otp st9 0 654321 5400).1 = none ∧
    (wizard_action_send_checkout_otp st9 0 654321 5400).2.sessions.map CheckinSession.state =
      [CheckinState.checked_in] ∧
    (wizard_action_send_checkout_otp st9 0 654321 5400).2.sessions.map
        CheckinSession.checkout_otp_code = [some 654321] :=
  ⟨by decide, rfl, rfl, rfl⟩

/-- Claim C6: for a session of non-negative duration `d` under an entitlement
with packages, with non-negative allowance `a` (maximum daily free minutes
plus maximum margin minutes, taken independently across the packages) and
non-negative maximal per-minute rate `r`: `free_used = min d a`,
`overage = max 0 (d - a)`, `free_used + overage = d`,
`overage_charge = overage * r`, and the charge is zero whenever the overage
is zero. -/
theorem billing_computation_correct (s : CheckinSession) (sub : Subscription) (now : Int)
    (hne : sub.package_ids ≠ [])
    (hd : 0 ≤ duration_minutes s now)
    (ha : 0 ≤ total_free_time sub)
    (hr : 0 ≤ per_minute_rate sub) :
    free_minutes_used s sub now = min (duration_minutes s now) (total_free_time sub) ∧
    extra_minutes s sub now = max 0 (duration_minutes s now - total_free_time sub) ∧
    free_minutes_used s sub now + extra_minutes s sub now = duration_minutes s now ∧
    extra_charges s sub now = (extra_minutes s sub now : Rat) * per_minute_rate sub ∧
    (extra_minutes s sub now = 0 → extra_charges s sub now = 0) ∧
    total_free_time sub =
      py_max_int (sub.package_ids.map Package.daily_free_minutes) 0 +
        py_max_int (sub.package_ids.map Package.margin_minutes) 0 ∧
    per_minute_rate sub =
      py_max_rat (sub.package_ids.map Package.extra_time_charge_per_minute) 0 := by
  have hfree : free_minutes_used s sub now =
      min (duration_minutes s now) (total_free_time sub) := by
    unfold free_minutes_used
    split_ifs <;> omega
  have hextra : extra_minutes s sub now =
      max 0 (duration_minutes s now - total_free_time sub) := by
    unfold extra_minutes
    split_ifs <;> omega
  have hcharge : extra_charges s sub now =
      (extra_minutes s sub now : Rat) * per_minute_rate sub := by
    unfold extra_charges
    split_ifs with h1 h2
    · have hz : extra_minutes s sub now = 0 := by omega
      rw [hz]
      norm_num
    · rfl
    · have hz : per_minute_rate sub = 0 := le_antisymm (not_lt.mp h2) hr
      rw [hz, mul_zero]
  refine ⟨hfree, hextra, by omega, hcharge, ?_, ?_, ?_⟩
  · intro hz
    rw [hcharge, hz]
    norm_num
  · unfold total_free_time
    rw [if_pos hne]
  · unfold per_minute_rate
    rw [if_pos hne]

/-- A session with the spec's end-to-end scenario: checked out after exactly
90 minutes under `subPaid 0` (allowance 70, rate 5). -/
def sess90 : CheckinSession :=
  { sessCheckedIn0 with state := CheckinState.checked_out, checkout_time := some 5400 }

/-- Witness for C6 at the spec's end-to-end scenario (duration 90,
allowance 70, rate 5): instantiates `billing_computation_correct`. -/
theorem billing_computation_correct_witness :
    free_minutes_used sess90 (subPaid 0) 0 =
      min (duration_minutes sess90 0) (total_free_time (subPaid 0)) ∧
    extra_minutes sess90 (subPaid 0) 0 =
      max 0 (duration_minutes sess90 0 - total_free_time (subPaid 0)) ∧
    free_minutes_used sess90 (subPaid 0) 0 + extra_minutes sess90 (subPaid 0) 0 =
      duration_minutes sess90 0 ∧
    extra_charges sess90 (subPaid 0) 0 =
      (extra_minutes sess90 (subPaid 0) 0 : Rat) * per_minute_rate (subPaid 0) ∧
    (extra_minutes sess90 (subPaid 0) 0 = 0 → extra_charges sess90 (subPaid 0) 0 = 0) ∧
    total_free_time (subPaid 0) =
      py_max_int ((subPaid 0).package_ids.map Package.daily_free_minutes) 0 +
        py_max_int ((subPaid 0).package_ids.map Package.margin_minutes) 0 ∧
    per_minute_rate (subPaid 0) =
      py_max_rat ((subPaid 0).package_ids.map Package.extra_time_charge_per_minute) 0 :=
  billing_computation_correct sess90 (subPaid 0) 0 (by decide) (by decide) (by decide) (by decide)

/-- Claim C7: for a session holding an issued OTP with recorded issue time
`t`, verification with the matching code fails with `OtpExpired` exactly
when the verification time is strictly greater than `t` plus 5 minutes
(300 s) and succeeds otherwise; a non-matching code fails with
`OtpMismatch` and a missing code with `NoOtpIssued` — for the check-in and
the check-out OTP alike. -/
theorem otp_expiry_strict_boundary (st : Store) (i : Nat) (s : CheckinSession)
    (hs : st.sessions[i]? = some s) (now : Int) :
    (∀ c t, s.otp_code = some c → s.otp_sent_time = some t →
      ((action_verify_otp st i c now).1 = some Err.OtpExpired ↔ t + 300 < now) ∧
      (now ≤ t + 300 → (action_verify_otp st i c now).1 = none)) ∧
    (∀ c e, s.otp_code = some c → e ≠ c →
      (action_verify_otp st i e now).1 = some Err.OtpMismatch) ∧
    (s.otp_code = none → ∀ e, (action_verify_otp st i e now).1 = some Err.NoOtpIssued) ∧
    (∀ c t, s.checkout_otp_code = some c → s.checkout_otp_sent_time = some t →
      ((action_verify_checkout_otp st i c now).1 = some Err.OtpExpired ↔ t + 300 < now) ∧
      (now ≤ t + 300 → (action_verify_checkout_otp st i c now).1 = none)) ∧
    (∀ c e, s.checkout_otp_code = some c → e ≠ c →
      (action_verify_checkout_otp st i e now).1 = some Err.OtpMismatch) ∧
    (s.checkout_otp_code = none → ∀ e,
      (action_verify_checkout_otp st i e now).1 = some Err.NoOtpIssued) := by
  refine ⟨?_, ?_, ?_, ?_, ?_, ?_⟩
  · intro c t hc ht
    simp only [action_verify_otp, hs, otpCheck, hc, ht, ne_eq, not_true_eq_false, if_false]
    constructor
    · split_ifs with h
      · simp [h]
      · simp [h]
    · intro hle
      rw [if_neg (by omega)]
  · intro c e hc he
    simp [action_verify_otp, hs, otpCheck, hc, he]
  · intro hc e
    simp [action_verify_otp, hs, otpCheck, hc]
  · intro c t hc ht
    simp only [action_verify_checkout_otp, hs, otpCheck, hc, ht, ne_eq, not_true_eq_false,
      if_false]
    constructor
    · split_ifs with h
      · simp [h]
      · simp [h]
    · intro hle
      rw [if_neg (by omega)]
  · intro c e hc he
    simp [action_verify_checkout_otp, hs, otpCheck, hc, he]
  · intro hc e
    simp [action_verify_checkout_otp, hs, otpCheck, hc]

/-- A session holding both a check-in OTP (111111) and a checkout OTP
(654321), both issued at time 0. -/
def sessBoth : CheckinSession := action_send_checkout_otp sessPending0 654321 0

/-- Store holding `sessBoth` only. -/
def stBoth : Store :=
  { num_children := 1, rooms := [], subs := [subPaid 0], sessions := [sessBoth],
    invoice_count := 0 }

/-- Witness for C7: with issue time 0, verification of the matching code
fails with `OtpExpired` at 301 s (5:00:01) and succeeds at 299 s (4:59:59);
the checkout OTP behaves identically; a wrong code mismatches and clearing
considerations aside a missing checkout code on `sessPending0` yields
`NoOtpIssued`. -/
theorem otp_expiry_strict_boundary_witness :
    (action_verify_otp stBoth 0 111111 301).1 = some Err.OtpExpired ∧
    (action_verify_otp stBoth 0 111111 299).1 = none ∧
    (action_verify_otp stBoth 0 999999 299).1 = some Err.OtpMismatch ∧
    (action_verify_checkout_otp stBoth 0 654321 301).1 = some Err.OtpExpired ∧
    (action_verify_checkout_otp stBoth 0 654321 299).1 = none ∧
    (action_verify_checkout_otp storeC3 0 654321 299).1 = some Err.NoOtpIssued := by
  have h1 := otp_expiry_strict_boundary stBoth 0 sessBoth rfl 301
  have h2 := otp_expiry_strict_boundary stBoth 0 sessBoth rfl 299
  have h3 := otp_expiry_strict_boundary storeC3 0 sessPending0 rfl 299
  exact ⟨(h1.1 111111 0 rfl rfl).1.mpr (by decide),
    (h2.1 111111 0 rfl rfl).2 (by decide),
    h2.2.1 111111 999999 rfl (by decide),
    (h1.2.2.2.1 654321 0 rfl rfl).1.mpr (by decide),
    (h2.2.2.2.1 654321 0 rfl rfl).2 (by decide),
    h3.2.2.2.2.2 rfl 654321⟩

/-- Claim C10: when the stored OTP's issue-time field is unset, the 5-minute
expiry check is skipped entirely: verification with the matching code
succeeds no matter how late it happens — for the check-in and the check-out
OTP alike. -/
theorem missing_issue_time_skips_expiry (st : Store) (i : Nat) (s : CheckinSession)
    (hs : st.sessions[i]? = some s) (now : Int) (c : Nat) :
    (s.otp_code = some c → s.otp_sent_time = none →
      (action_verify_otp st i c now).1 = none) ∧
    (s.checkout_otp_code = some c → s.checkout_otp_sent_time = none →
      (action_verify_checkout_otp st i c now).1 = none) := by
  constructor
  · intro hc ht
    simp [action_verify_otp, hs, otpCheck, hc, ht]
  · intro hc ht
    simp [action_verify_checkout_otp, hs, otpCheck, hc, ht]

/-- A session holding both OTP codes but no issue times. -/
def sessNoSent : CheckinSession :=
  { mkSession 0 none 0 0 with otp_code := some 111111, checkout_otp_code := some 654321 }

/-- Store holding `sessNoSent` only. -/
def stNoSent : Store :=
  { num_children := 1, rooms := [], subs := [subPaid 0], sessions := [sessNoSent],
    invoice_count := 0 }

/-- Witness for C10: both verifications succeed a billion seconds after
session creation because no issue time was recorded. -/
theorem missing_issue_time_skips_expiry_witness :
    (action_verify_otp stNoSent 0 111111 1000000000).1 = none ∧
    (action_verify_checkout_otp stNoSent 0 654321 1000000000).1 = none :=
  ⟨(missing_issue_time_skips_expiry stNoSent 0 sessNoSent rfl 1000000000 111111).1 rfl rfl,
    (missing_issue_time_skips_expiry stNoSent 0 sessNoSent rfl 1000000000 654321).2 rfl rfl⟩

/-- Claim C8: in every lifecycle operation — check-in OTP verification,
check-out OTP verification, payment confirmation, and the checkout request —
all validation errors are raised before any write, so a failing call leaves
the store (the session and every stored field) exactly as it was. -/
theorem failed_operations_preserve_state (st : Store) (i : Nat) (e otp : Nat) (now : Int) :
    ((action_verify_otp st i e now).1.isSome = true → (action_verify_otp st i e now).2 = st) ∧
    ((action_verify_checkout_otp st i e now).1.isSome = true →
      (action_verify_checkout_otp st i e now).2 = st) ∧
    ((action_confirm_payment st i otp now).1.isSome = true →
      (action_confirm_payment st i otp now).2 = st) ∧
    ((wizard_action_send_checkout_otp st i otp now).1.isSome = true →
      (wizard_action_send_checkout_otp st i otp now).2 = st) := by
  refine ⟨?_, ?_, ?_, ?_⟩
  · unfold action_verify_otp
    rcases hget : st.sessions[i]? with _ | s
    · simp
    · rcases hchk : otpCheck s.otp_code s.otp_sent_time e now with _ | err <;> simp [hchk]
  · unfold action_verify_checkout_otp
    rcases hget : st.sessions[i]? with _ | s
    · simp
    · rcases hchk : otpCheck s.checkout_otp_code s.checkout_otp_sent_time e now with _ | err <;>
        simp [hchk]
  · unfold action_confirm_payment
    rcases hget : st.sessions[i]? with _ | s
    · simp
    · by_cases hsp : s.state ≠ CheckinState.pending_payment <;> simp [hsp]
  · unfold wizard_action_send_checkout_otp
    rcases hget : st.sessions[i]? with _ | s
    · simp
    · by_cases hsp : s.state ≠ CheckinState.checked_in <;> simp [hsp]

/-- Witness for C8: four concrete failing calls on `storeC3` (OTP mismatch,
no checkout OTP issued, payment not required, not checked in) all leave the
store untouched. -/
theorem failed_operations_preserve_state_witness :
    (action_verify_otp storeC3 0 999999 10).2 = storeC3 ∧
    (action_verify_checkout_otp storeC3 0 999999 10).2 = storeC3 ∧
    (action_confirm_payment storeC3 0 999999 10).2 = storeC3 ∧
    (wizard_action_send_checkout_otp storeC3 0 999999 10).2 = storeC3 := by
  have h := failed_operations_preserve_state storeC3 0 999999 999999 10
  exact ⟨h.1 (by decide), h.2.1 (by decide), h.2.2.1 (by decide), h.2.2.2 (by decide)⟩

/-- Claim C1 (amended): a checkout request fails with `NotCheckedIn` unless
the session is `checked_in`; on success it always proceeds directly to
issuing a checkout OTP (storing a fresh code and its issue time on the
session) and leaves the lifecycle state `checked_in` — there is no branch
on the overage charge and no transition to `pending_payment`. -/
theorem checkout_request_behavior (st : Store) (i : Nat) (s : CheckinSession)
    (hs : st.sessions[i]? = some s) (otp : Nat) (now : Int) :
    (s.state ≠ CheckinState.checked_in →
      wizard_action_send_checkout_otp st i otp now = (some Err.NotCheckedIn, st)) ∧
    (s.state = CheckinState.checked_in →
      wizard_action_send_checkout_otp st i otp now =
        (none, setSession st i (action_send_checkout_otp s otp now))) := by
  constructor
  · intro h
    simp [wizard_action_send_checkout_otp, hs, h]
  · intro h
    simp [wizard_action_send_checkout_otp, hs, h, setSession, action_send_checkout_otp]

/-- Witness for C1: on the `checked_in` session of `st9` (whose live overage
charge is 100) the checkout request succeeds and only stamps the checkout
OTP fields. -/
theorem checkout_request_behavior_witness :
    wizard_action_send_checkout_otp st9 0 654321 5400 =
      (none, setSession st9 0 (action_send_checkout_otp sessCheckedIn0 654321 5400)) :=
  (checkout_request_behavior st9 0 sessCheckedIn0 rfl 654321 5400).2 rfl

/-- Claim C3 (amended): a check-in request for a child with a qualifying
entitlement fails with `AlreadyCheckedIn` exactly when the child has a
session with no checkout time in state `checked_in` or
`pending_checkout_otp`; sessions in `pending_otp` or `pending_payment` do
not block, so several non-terminal sessions per child are reachable. -/
theorem already_checked_in_characterization (st : Store) (c : Nat) (today : Int)
    (hc : c < st.num_children) :
    (validate_active_subscription st c today = Except.error Err.AlreadyCheckedIn ↔
      (activeSubFilter st c today ≠ [] ∧ is_checked_in st c = true)) ∧
    (is_checked_in st c = true ↔
      ∃ s, s ∈ st.sessions ∧ s.child_id = c ∧ s.checkout_time = none ∧
        (s.state = CheckinState.checked_in ∨ s.state = CheckinState.pending_checkout_otp)) := by
  constructor
  · unfold validate_active_subscription
    rw [if_neg (by omega)]
    rcases hf : activeSubFilter st c today with _ | ⟨⟨j, sub⟩, rest⟩
    · simp
    · by_cases hck : is_checked_in st c = true
      · simp [hck]
      · simp [hck]
  · unfold is_checked_in childSessions
    simp only [List.any_eq_true, List.mem_filter, decide_eq_true_eq]
    constructor
    · rintro ⟨s, ⟨hm, hcid⟩, hco, hst⟩
      exact ⟨s, hm, hcid, hco, hst⟩
    · rintro ⟨s, hm, hcid, hco, hst⟩
      exact ⟨s, ⟨hm, hcid⟩, hco, hst⟩

/-- Witness for C3 (amended) on `st9`: the child's only session is
`checked_in` with no checkout time, so validation fails with
`AlreadyCheckedIn` and the characterizing existential holds. -/
theorem already_checked_in_characterization_witness :
    (validate_active_subscription st9 0 10 = Except.error Err.AlreadyCheckedIn ↔
      (activeSubFilter st9 0 10 ≠ [] ∧ is_checked_in st9 0 = true)) ∧
    (is_checked_in st9 0 = true ↔
      ∃ s, s ∈ st9.sessions ∧ s.child_id = 0 ∧ s.checkout_time = none ∧
        (s.state = CheckinState.checked_in ∨ s.state = CheckinState.pending_checkout_otp)) :=
  already_checked_in_characterization st9 0 10 (by decide)
